/-
  Verification of the validator protocol, registry and concrete validators of
  `flex_eav/eav_validator.py` (django-flex-eav), via a shallow embedding in Lean 4.

  Modelling conventions:
  * Python values that flow through untyped configuration mappings are embedded
    as the inductive `PyObj`; `Kwargs` is an association list modelling a Python
    keyword-argument dict.
  * Python exceptions are embedded as the inductive `Exc`; fallible Python
    functions become `Except Exc _`.  Django's `ValidationError` subclasses
    `Exception` directly (not `ValueError`), so it is a distinct constructor.
  * Python strings are modelled as Lean `String`s; string algorithms
    (split / strip / lower) are reimplemented on `List Char` so that every
    definition kernel-evaluates on concrete inputs.
-/
import Mathlib

namespace EavValidator

/-- A scalar Python value appearing inside a nested configuration dict (the
    only nested dict in this module is Range's `range` mapping, whose values
    are scalars). Rationals stand for floats: every float in the claims is
    exactly representable. -/
inductive PyScalar where
  | pstr (s : String)
  | pint (n : ℤ)
  | pfloat (q : ℚ)
  | pnone
  deriving DecidableEq, Repr

/-- Embedded Python runtime values, as they appear in validator configuration
    mappings: strings, ints, rationals standing for floats, lists of strings,
    one-level dicts of scalars, and `None`. -/
inductive PyObj where
  | pstr (s : String)
  | pint (n : ℤ)
  | pfloat (q : ℚ)
  | plist (l : List String)
  | pdict (d : List (String × PyScalar))
  | pnone
  deriving DecidableEq, Repr

/-- Python truthiness of an embedded value (`bool(x)`). -/
def truthy : PyObj → Bool
  | .pstr s => !s.isEmpty
  | .pint n => n != 0
  | .pfloat q => q != 0
  | .plist l => !l.isEmpty
  | .pdict d => !d.isEmpty
  | .pnone => false

/-- Embedded Python exceptions.  `validationError` is
    `django.core.exceptions.ValidationError`, which subclasses `Exception`
    directly — it is *not* a `ValueError`. -/
inductive Exc where
  | keyError
  | attributeError
  | valueError (msg : String)
  | typeError (msg : String)
  | validationError (msg : String)
  deriving DecidableEq, Repr

/-- The exception classes suppressed by the `contextlib.suppress` block in
    `ValidatorBase.initialize_from_kwargs` (line 21 of the source):
    `KeyError`, `AttributeError`, `ValueError`.  Django's `ValidationError`
    and `TypeError` are not among them. -/
def suppressedExc : Exc → Bool
  | .keyError => true
  | .attributeError => true
  | .valueError _ => true
  | .typeError _ => false
  | .validationError _ => false

/-- Decidable equality of `Except` results, so that claim instances evaluate
    by `decide`. -/
def exceptDecEq {ε α : Type} [DecidableEq ε] [DecidableEq α] :
    (x y : Except ε α) → Decidable (x = y)
  | .ok a, .ok b =>
      if h : a = b then .isTrue (by rw [h]) else .isFalse (by simp [h])
  | .ok _, .error _ => .isFalse (by simp)
  | .error _, .ok _ => .isFalse (by simp)
  | .error e, .error f =>
      if h : e = f then .isTrue (by rw [h]) else .isFalse (by simp [h])

instance {ε α : Type} [DecidableEq ε] [DecidableEq α] : DecidableEq (Except ε α) :=
  exceptDecEq

/-- A Python `**kwargs` mapping: an association list from keyword name to value. -/
abbrev Kwargs := List (String × PyObj)

/-- `kwargs.get(k)` — `None`-as-`Option` lookup. -/
def Kwargs.get (kw : Kwargs) (k : String) : Option PyObj :=
  (List.find? (fun p => p.1 = k) kw).map Prod.snd

/-- `kwargs.get(k, default)`. -/
def Kwargs.getD (kw : Kwargs) (k : String) (dflt : PyObj) : PyObj :=
  (kw.get k).getD dflt

/-- `d.get(k)` on an embedded Python dict of scalars. -/
def dictGetPy (d : List (String × PyScalar)) (k : String) : Option PyScalar :=
  (List.find? (fun p => p.1 = k) d).map Prod.snd

/-! ## The validator registry

`ValidatorRegistry.validators` is a class-level Python dict from slug to
validator class; we model the class-identity part of a validator type
(its `slug` and `title` attributes) as `ValidatorType` and the dict as an
insertion-ordered association list with Python-dict assignment semantics:
assigning to an existing key updates it in place, otherwise the pair is
appended. -/

/-- The static identity of a registered validator class: its `slug` and
    `title` class attributes. -/
structure ValidatorType where
  slug : String
  title : String
  deriving DecidableEq, Repr

/-- The registry state: the `ValidatorRegistry.validators` dict. -/
abbrev Registry := List (String × ValidatorType)

/-- Python dict assignment `d[k] = v`: replace the value at `k` in place if
    `k` is present (preserving insertion order — the first and, keys being
    unique in a dict, only occurrence is updated), otherwise append the new
    pair at the end. -/
def dictSet : List (String × ValidatorType) → String → ValidatorType →
    List (String × ValidatorType)
  | [], k, v => [(k, v)]
  | p :: rest, k, v =>
      if p.1 = k then (k, v) :: rest else p :: dictSet rest k v

/-- Python dict lookup `d.get(k)` on the registry. -/
def dictGet (d : List (String × ValidatorType)) (k : String) : Option ValidatorType :=
  (List.find? (fun p => p.1 = k) d).map Prod.snd

/-- `ValidatorRegistry.register` (source lines 59–61):
    `cls.validators[validator.slug] = validator` — and the method body has no
    `return` statement, so the call returns Python `None`.  The result is the
    pair (new registry state, returned value). -/
def ValidatorRegistry.register (r : Registry) (v : ValidatorType) :
    Registry × Option ValidatorType :=
  (dictSet r v.slug v, none)

/-- `ValidatorRegistry.get_validator` (source lines 63–65):
    `return cls.validators.get(slug)`. -/
def ValidatorRegistry.get_validator (r : Registry) (slug : String) :
    Option ValidatorType :=
  dictGet r slug

/-- The five built-in validator identities, in source order. -/
def regexVT : ValidatorType := ⟨"regex", "Regex"⟩

def rangeVT : ValidatorType := ⟨"range", "Range"⟩

def choiceVT : ValidatorType := ⟨"choice", "Choice"⟩

def booleanVT : ValidatorType := ⟨"boolean", "Boolean"⟩

def multipleChoiceVT : ValidatorType := ⟨"multiple_choice", "Multiple Choice"⟩

/-- The registry state after module load: the five `@register` decorations,
    applied in source order to the empty `validators` dict. -/
def builtinRegistry : Registry :=
  (ValidatorRegistry.register
    (ValidatorRegistry.register
      (ValidatorRegistry.register
        (ValidatorRegistry.register
          (ValidatorRegistry.register [] regexVT).1
          rangeVT).1
        choiceVT).1
      booleanVT).1
    multipleChoiceVT).1

/-- Well-formedness of a registry state: every entry's key is its validator's
    slug.  This is the invariant `register` maintains by keying on
    `validator.slug`. -/
def RegistryWF (r : Registry) : Prop :=
  ∀ p ∈ r, (Prod.snd p).slug = p.1

instance (r : Registry) : Decidable (RegistryWF r) :=
  inferInstanceAs (Decidable (∀ p ∈ r, (Prod.snd p).slug = p.1))

/-! ## Python string primitives

`str.split`, `str.strip` and `str.lower` reimplemented over `List Char`
so that every use kernel-evaluates. -/

/-- Helper for `str.split(sep)` with a one-character separator: splits at every
    occurrence, keeping empty fields (`"a,,b" → ["a","","b"]`, `"" → [""]`).
    The accumulator holds the current field reversed. -/
def splitOnCharAux (sep : Char) : List Char → List Char → List (List Char)
  | [], acc => [acc.reverse]
  | c :: rest, acc =>
      if c = sep then acc.reverse :: splitOnCharAux sep rest []
      else splitOnCharAux sep rest (c :: acc)

/-- `value.split(",")`. -/
def pySplitComma (s : String) : List (List Char) :=
  splitOnCharAux ',' s.toList []

/-- Python `str.isspace`-style whitespace, the characters `str.strip()` removes. -/
def isPySpace (c : Char) : Bool :=
  c == ' ' || c == '\t' || c == '\n' || c == '\r' || c == '\x0b' || c == '\x0c'

/-- `str.strip()`: drop whitespace from both ends. -/
def pyStrip (l : List Char) : List Char :=
  ((l.dropWhile isPySpace).reverse.dropWhile isPySpace).reverse

/-- `str.lower()` (ASCII, which is all the source's inputs use). -/
def pyLower (l : List Char) : List Char :=
  l.map Char.toLower

/-- `str.lower()` packaged on `String`. -/
def pyLowerStr (s : String) : String :=
  String.mk (pyLower s.toList)

/-! ## Python single-use iterators

`map(...)` in Python 3 returns a lazy, single-use iterator: consuming it
(with `list`, `set`, or a `for` loop) leaves it exhausted, and every later
consumer sees no elements.  `MultipleChoiceValidator.validate` consumes the
same `map` object three times, which is the heart of claim C1. -/

/-- A Python iterator over already-computed elements. -/
structure PyIter (α : Type) where
  remaining : List α

/-- Consume the iterator completely (what `list(it)`, `set(it)` and iterating
    in a generator all do): returns the elements yielded and the now-exhausted
    iterator. -/
def PyIter.consume {α : Type} (it : PyIter α) : List α × PyIter α :=
  (it.remaining, ⟨[]⟩)

/-! ## MultipleChoiceValidator -/

/-- `MultipleChoiceValidator.validate` (source lines 183-189), with the
    single-use `map` iterator made explicit:

    * line 184 builds `selected_values = map(str.lower, map(str.strip, value.split(",")))`;
    * line 185 evaluates `len(list(selected_values)) != len(set(selected_values))`
      left to right, so `list(...)` consumes the iterator and `set(...)` is
      built from the already-exhausted iterator (the empty set);
    * line 188's generator `for v in selected_values` also iterates the
      exhausted iterator.

    `choices` is `self.choices` as stored by `__init__`. -/
def MultipleChoiceValidator.validate (choices : List String) (value : String) :
    Except Exc Unit :=
  let selected_values : PyIter (List Char) :=
    ⟨(pySplitComma value).map (fun t => pyLower (pyStrip t))⟩
  let consumedByList := selected_values.consume
  let consumedBySet := consumedByList.2.consume
  if consumedByList.1.length ≠ consumedBySet.1.dedup.length then
    .error (.validationError "Duplicate choices are not allowed")
  else
    let consumedByAll := consumedBySet.2.consume
    if !(consumedByAll.1.all fun v =>
        (choices.map (fun c => pyLower c.toList)).contains v) then
      .error (.validationError ("Invalid choices. Valid choices are: " ++
        String.intercalate ", " choices))
    else
      .ok ()

/-! ## RegexValidator

Python's `re.match(pattern, value)` anchors the match at position 0 and
succeeds when the pattern matches *some* prefix of the string — it does not
require a full match.  We embed patterns as a regular-expression AST with a
Brzozowski-derivative matcher, and `re.match` as "some prefix is accepted". -/

/-- Regular-expression AST (the fragment needed for the claims). -/
inductive Regex where
  | emptyset
  | epsilon
  | char (c : Char)
  | seq (r1 r2 : Regex)
  | alt (r1 r2 : Regex)
  | star (r : Regex)
  deriving DecidableEq, Repr

/-- Does the regex accept the empty string? -/
def Regex.nullable : Regex → Bool
  | .emptyset => false
  | .epsilon => true
  | .char _ => false
  | .seq r1 r2 => r1.nullable && r2.nullable
  | .alt r1 r2 => r1.nullable || r2.nullable
  | .star _ => true

/-- Brzozowski derivative of a regex by one character. -/
def Regex.deriv : Regex → Char → Regex
  | .emptyset, _ => .emptyset
  | .epsilon, _ => .emptyset
  | .char c, a => if a = c then .epsilon else .emptyset
  | .seq r1 r2, a =>
      if r1.nullable then .alt (.seq (r1.deriv a) r2) (r2.deriv a)
      else .seq (r1.deriv a) r2
  | .alt r1 r2, a => .alt (r1.deriv a) (r2.deriv a)
  | .star r, a => .seq (r.deriv a) (.star r)

/-- Full match of a regex against a character list. -/
def Regex.accepts (r : Regex) (s : List Char) : Bool :=
  (s.foldl Regex.deriv r).nullable

/-- `re.match(pattern, value)` as a Boolean: anchored at the start, matching
    any (possibly proper, possibly empty) prefix. -/
def reMatch (r : Regex) (s : String) : Bool :=
  (List.range (s.toList.length + 1)).any fun n => r.accepts (s.toList.take n)

/-- The pattern string `"^a"`: `^` asserts the start of the string, which is
    always satisfied at the position-0 anchor of `re.match`, so the pattern
    denotes the single literal character `a`. -/
def patternCaretA : Regex := .char 'a'

/-- `RegexValidator.validate` (source lines 88-90):
    `if not re.match(self.pattern, value): raise ValidationError(...)`. -/
def RegexValidator.validate (pattern : Regex) (value : String) : Except Exc Unit :=
  if reMatch pattern value then .ok ()
  else .error (.validationError "Value does not match regex")

/-- `RegexValidator.validate_kwargs` (source lines 84-86): ok exactly when
    `kwargs.get("pattern")` is truthy (`pattern and ...`) and a string
    (`isinstance(pattern, str)`); otherwise django `ValidationError`. -/
def RegexValidator.validate_kwargs (kwargs : Kwargs) : Except Exc Unit :=
  match kwargs.get "pattern" with
  | some (.pstr s) =>
      if !s.isEmpty then .ok () else .error (.validationError "Pattern is required")
  | _ => .error (.validationError "Pattern is required")

/-- `RegexValidator.__init__` (source lines 81-82): stores
    `kwargs.get("pattern")` unchecked; never raises. -/
def RegexValidator.init (kwargs : Kwargs) : Except Exc (Option PyObj) :=
  .ok (kwargs.get "pattern")

/-! ## RangeValidator -/

/-- Digit-string to number. -/
def natOfDigits (l : List Char) : ℕ :=
  l.foldl (fun a c => a * 10 + (c.toNat - 48)) 0

/-- Negate the numerator when a leading `-` sign was parsed. -/
def applySign (neg : Bool) (n : ℕ) : ℤ :=
  if neg then -(n : ℤ) else (n : ℤ)

/-- Python `float(s)` on plain decimal literals: optional sign, digits with at
    most one decimal point and at least one digit (`"3"`, `"3.5"`, `".5"`,
    `"5."`); `none` models the `ValueError` that `float` raises otherwise.
    This covers the subset of `float`'s grammar the source's claims exercise
    (no exponents, no `inf`/`nan`, no surrounding whitespace); the result is an
    exact rational — `d₀…dₘ.f₀…fₖ` denotes `(d·10^k + f) / 10^k` — and every
    literal in the claims is exactly representable as a binary float, so no
    rounding is lost in the embedding. -/
def parseFloat (s : String) : Option ℚ :=
  let signAndBody : Bool × List Char :=
    match s.toList with
    | '-' :: rest => (true, rest)
    | '+' :: rest => (false, rest)
    | cs => (false, cs)
  match splitOnCharAux '.' signAndBody.2 [] with
  | [intPart] =>
      if intPart ≠ [] ∧ intPart.all Char.isDigit then
        some (mkRat (applySign signAndBody.1 (natOfDigits intPart)) 1)
      else none
  | [intPart, fracPart] =>
      if (intPart ≠ [] ∨ fracPart ≠ []) ∧
          intPart.all Char.isDigit ∧ fracPart.all Char.isDigit then
        some (mkRat
          (applySign signAndBody.1
            (natOfDigits intPart * 10 ^ fracPart.length + natOfDigits fracPart))
          (10 ^ fracPart.length))
      else none
  | _ => none

/-- A constructed Range validator instance: `self.min_value` / `self.max_value`
    as stored by `__init__` from the `range` mapping (numbers in every use the
    claims exercise). -/
structure RangeValidator where
  min_value : ℚ
  max_value : ℚ

/-- `RangeValidator.validate` (source lines 115-120).  `float(value)` failing
    raises `ValueError`, caught by the `except ValueError` clause and turned
    into the distinct "Value must be an number" message; the out-of-range
    django `ValidationError` raised inside the `try` is *not* a `ValueError`
    and so is not caught by that clause. -/
def RangeValidator.validate (self : RangeValidator) (value : String) : Except Exc Unit :=
  match parseFloat value with
  | none => .error (.validationError "Value must be an number")
  | some x =>
      if self.min_value ≤ x ∧ x ≤ self.max_value then .ok ()
      else .error (.validationError "Value is not in range: %s - %s")

/-- `RangeValidator.to_value` (source lines 122-126): `float(value)`, narrowed
    to an integer when `value.is_integer()`; a parse failure propagates as an
    uncaught `ValueError`. -/
def RangeValidator.to_value (value : String) : Except Exc PyObj :=
  match parseFloat value with
  | none => .error (.valueError "could not convert string to float")
  | some x => if x.den = 1 then .ok (.pint x.num) else .ok (.pfloat x)

/-- Models `d.get(k) is not None` on the `range` mapping. -/
def isNotNone : Option PyScalar → Bool
  | none => false
  | some .pnone => false
  | some _ => true

/-- Models the Python expression `str(x).isdigit` at source line 112: the
    `isdigit` method is referenced but *not called* (no parentheses), so the
    mapped value is a bound-method object, and a bound method is always
    truthy. -/
def str_isdigit_uncalled (_x : Option PyScalar) : Bool := true

/-- `RangeValidator.validate_kwargs` (source lines 104-113):
    `_range = kwargs.get("range", {})`; both `min_value` and `max_value` must
    be present and not `None`; then
    `all(map(lambda x: str(x).isdigit, (min_value, max_value)))` — which, the
    method being uncalled, is `all` over two truthy bound methods and never
    fails.  A non-dict `range` value would raise `AttributeError` at `.get`. -/
def RangeValidator.validate_kwargs (kwargs : Kwargs) : Except Exc Unit :=
  match kwargs.getD "range" (.pdict []) with
  | .pdict d =>
      let min_value := dictGetPy d "min_value"
      let max_value := dictGetPy d "max_value"
      if !(isNotNone min_value && isNotNone max_value) then
        .error (.validationError "min_value and max_value are required")
      else if !([min_value, max_value].all str_isdigit_uncalled) then
        .error (.validationError "min_value and max_value must be number")
      else
        .ok ()
  | _ => .error .attributeError

/-! ## ChoiceValidator -/

/-- `ChoiceValidator.validate_kwargs` (source lines 142-147):
    `kwargs.get("choices")` must be truthy, then must be a `list`. -/
def ChoiceValidator.validate_kwargs (kwargs : Kwargs) : Except Exc Unit :=
  if !((kwargs.get "choices").elim false truthy) then
    .error (.validationError "Choices are required")
  else
    match kwargs.get "choices" with
    | some (.plist _) => .ok ()
    | _ => .error (.validationError "Choices must be a list")

/-- Binding `**kwargs` against `ChoiceValidator.__init__(self, choices)`
    (source lines 135-136): unlike every other built-in, this constructor
    takes the explicit keyword `choices`, so Python raises `TypeError` when
    any other keyword is supplied or when `choices` is missing; otherwise the
    value is stored unchanged. -/
def ChoiceValidator.init (kwargs : Kwargs) : Except Exc PyObj :=
  if kwargs.any (fun p => p.1 ≠ "choices") then
    .error (.typeError "__init__() got an unexpected keyword argument")
  else
    match kwargs.get "choices" with
    | some obj => .ok obj
    | none => .error (.typeError "__init__() missing 1 required positional argument: choices")

/-! ## BooleanValidator -/

/-- `BooleanValidator.validate` (source lines 159-161): `str(value).lower()`
    must be `"true"` or `"false"`; at this boundary `value` is already a
    string, so `str(value)` is `value` itself. -/
def BooleanValidator.validate (value : String) : Except Exc Unit :=
  if pyLowerStr value = "true" ∨ pyLowerStr value = "false" then .ok ()
  else .error (.validationError "Value must be 'true' or 'false'.")

/-- `BooleanValidator.to_value` (source lines 163-164):
    `str(value).lower() == "true"`. -/
def BooleanValidator.to_value (value : String) : Bool :=
  pyLowerStr value = "true"

/-! ## ValidatorBase.initialize_from_kwargs -/

/-- `ValidatorBase.initialize_from_kwargs` (source lines 19-25): run
    `cls.validate_kwargs(cls, **kwargs)` and then `cls(**kwargs)` inside
    `contextlib.suppress(KeyError, AttributeError, ValueError)`.  When the body
    raises a suppressed exception, control resumes after the `with` block and
    the uniform `ValueError("Invalid kwargs for {cls}. Valid kwargs are ...")`
    is raised, its message listing `get_instance_kwargs(cls.__init__)`; a
    non-suppressed exception (django's `ValidationError`, a `TypeError`)
    propagates unchanged; otherwise the constructed instance is returned. -/
def ValidatorBase.init_from_kwargs {V : Type} (clsName : String) (instanceKwargs : List String)
    (vk : Kwargs → Except Exc Unit) (ctor : Kwargs → Except Exc V)
    (kwargs : Kwargs) : Except Exc V :=
  match vk kwargs >>= fun _ => ctor kwargs with
  | .ok v => .ok v
  | .error e =>
      if suppressedExc e then
        .error (.valueError ("Invalid kwargs for " ++ clsName ++ ". Valid kwargs are " ++
          String.intercalate ", " instanceKwargs))
      else .error e

/-- `initialize_from_kwargs` specialised to `RegexValidator`;
    `get_instance_kwargs(cls.__init__)` introspects `__init__(self, **kwargs)`
    as the parameter-name set {self, kwargs}. -/
def RegexValidator.init_from_kwargs : Kwargs → Except Exc (Option PyObj) :=
  ValidatorBase.init_from_kwargs "RegexValidator" ["self", "kwargs"]
    RegexValidator.validate_kwargs RegexValidator.init

/-- `initialize_from_kwargs` specialised to `ChoiceValidator`;
    `get_instance_kwargs(cls.__init__)` introspects `__init__(self, choices)`
    as the parameter-name set {self, choices}. -/
def ChoiceValidator.init_from_kwargs : Kwargs → Except Exc PyObj :=
  ValidatorBase.init_from_kwargs "ChoiceValidator" ["self", "choices"]
    ChoiceValidator.validate_kwargs ChoiceValidator.init

/-- A sample registration with `choices = ["a", "b"]` plus one unexpected
    keyword, the configuration of claim C10's witness. -/
def kwChoicesExtra : Kwargs :=
  [("choices", .plist ["a", "b"]), ("extra", .pint 1)]

/-- The Range instance configured with `{min_value: 1, max_value: 5}`. -/
def range15 : RangeValidator := ⟨1, 5⟩

/-- Two custom validator types sharing one slug, for the overwrite part of
    claim C5's witness. -/
def customVT1 : ValidatorType := ⟨"custom", "Custom 1"⟩

/-- Second registration under the slug `"custom"`. -/
def customVT2 : ValidatorType := ⟨"custom", "Custom 2"⟩

/-! ## Helper lemmas -/

theorem splitOnCharAux_ne_nil (sep : Char) (l acc : List Char) :
    splitOnCharAux sep l acc ≠ [] := by
  induction l generalizing acc with
  | nil => simp [splitOnCharAux]
  | cons c rest ih =>
      simp only [splitOnCharAux]
      split
      · simp
      · exact ih (c :: acc)

theorem dictGet_dictSet_self (r : Registry) (k : String) (v : ValidatorType) :
    dictGet (dictSet r k v) k = some v := by
  induction r with
  | nil => simp [dictSet, dictGet]
  | cons p rest ih =>
      by_cases h : p.1 = k
      · simp [dictSet, h, dictGet]
      · simpa [dictSet, h, dictGet] using ih

theorem registryWF_dictSet (r : Registry) (v : ValidatorType) (hwf : RegistryWF r) :
    RegistryWF (dictSet r v.slug v) := by
  induction r with
  | nil =>
      intro p hp
      simp [dictSet] at hp
      rw [hp]
  | cons q rest ih =>
      intro p hp
      by_cases h : q.1 = v.slug
      · simp only [dictSet, h, if_pos] at hp
        rcases List.mem_cons.mp hp with h1 | h2
        · rw [h1]
        · exact hwf p (List.mem_cons_of_mem q h2)
      · simp only [dictSet, h, if_neg, not_false_iff] at hp
        rcases List.mem_cons.mp hp with h1 | h2
        · rw [h1]; exact hwf q (List.mem_cons_self q rest)
        · exact ih (fun x hx => hwf x (List.mem_cons_of_mem q hx)) p h2

theorem mem_keys_dictSet (r : Registry) (k a : String) (v : ValidatorType)
    (h : a ∈ (dictSet r k v).map Prod.fst) :
    a ∈ r.map Prod.fst ∨ a = k := by
  induction r with
  | nil => simp [dictSet] at h; right; exact h
  | cons p rest ih =>
      by_cases hp : p.1 = k
      · simp only [dictSet, hp, if_pos, List.map_cons, List.mem_cons] at h
        rcases h with h1 | h2
        · right; exact h1
        · left; rw [List.map_cons]; exact List.mem_cons_of_mem _ h2
      · simp only [dictSet, hp, if_neg, not_false_iff, List.map_cons, List.mem_cons] at h
        rcases h with h1 | h2
        · left; rw [List.map_cons, h1]; exact List.mem_cons_self _ _
        · rcases ih h2 with h3 | h4
          · left; rw [List.map_cons]; exact List.mem_cons_of_mem _ h3
          · right; exact h4

theorem nodup_keys_dictSet (r : Registry) (k : String) (v : ValidatorType)
    (h : (r.map Prod.fst).Nodup) : ((dictSet r k v).map Prod.fst).Nodup := by
  induction r with
  | nil => simp [dictSet]
  | cons p rest ih =>
      rw [List.map_cons, List.nodup_cons] at h
      by_cases hp : p.1 = k
      · simp only [dictSet, hp, if_pos, List.map_cons, List.nodup_cons]
        exact ⟨hp ▸ h.1, h.2⟩
      · simp only [dictSet, hp, if_neg, not_false_iff, List.map_cons, List.nodup_cons]
        refine ⟨fun hmem => ?_, ih h.2⟩
        rcases mem_keys_dictSet rest k p.1 v hmem with h1 | h2
        · exact h.1 h1
        · exact hp h2

/-! ## Claim theorems -/

/-- C1. The claim says `validate("a, B")` succeeds while `"a,a"` fails with the
duplicate error and `"a,z"` with the invalid-choices error.  On the code,
`validate` raises the duplicate-choices `ValidationError` for *every* input:
the `map` iterator of line 184 is exhausted by `list(...)` on line 185 before
`set(...)` reads it, so the set is always empty while the token list is never
empty (splitting always yields at least one token). -/
theorem multiple_choice_validate_always_duplicate_error
    (choices : List String) (value : String) :
    MultipleChoiceValidator.validate choices value =
      .error (.validationError "Duplicate choices are not allowed") ∧
    MultipleChoiceValidator.validate ["a", "b", "c"] "a, B" =
      .error (.validationError "Duplicate choices are not allowed") ∧
    MultipleChoiceValidator.validate ["a", "b", "c"] "a,a" =
      .error (.validationError "Duplicate choices are not allowed") ∧
    MultipleChoiceValidator.validate ["a", "b", "c"] "a,z" =
      .error (.validationError "Duplicate choices are not allowed") := by
  refine ⟨?_, by decide, by decide, by decide⟩
  have hne : (splitOnCharAux ',' value.toList []).length ≠ 0 := by
    simpa [List.length_eq_zero] using splitOnCharAux_ne_nil ',' value.toList []
  simp only [MultipleChoiceValidator.validate, PyIter.consume, pySplitComma,
    List.dedup_nil, List.length_nil, List.length_map]
  rw [if_pos hne]

/-- C2. The claim says `ValidatorRegistry.register(V)` returns `V` itself.  On
the code, the method body is only the dict assignment and has no `return`
statement, so every call returns `None` — and the `@register` decorations in
the module bind each validator class name to `None`. -/
theorem register_returns_none (r : Registry) (v : ValidatorType) :
    (ValidatorRegistry.register r v).2 = none :=
  rfl

/-- C3. The claim says a configuration missing a required key fails with the
single uniform Configuration Error.  On the code, `validate_kwargs` raises a
django `ValidationError`, which is not among the classes suppressed by
`contextlib.suppress(KeyError, AttributeError, ValueError)` (django's
`ValidationError` subclasses `Exception` directly), so it propagates in its
original form instead of being re-raised as the uniform error: evaluated at
`RegexValidator.initialize_from_kwargs({})`. -/
theorem regex_init_missing_pattern_propagates_validationerror :
    RegexValidator.init_from_kwargs [] =
      .error (.validationError "Pattern is required") ∧
    suppressedExc (.validationError "Pattern is required") = false :=
  ⟨by decide, by decide⟩

/-- C4. The claim says `RangeValidator.validate_kwargs` rejects negative or
fractional bounds with the "must be number" `ValidationError`.  On the code,
line 112 maps `lambda x: str(x).isdigit` — the `isdigit` method is referenced
but never called, and a bound-method object is always truthy — so the digit
check never fires: bounds `{min_value: -1, max_value: 5}` and
`{min_value: 1.5, max_value: 5}` are accepted, and no input at all can reach
the "must be number" error. -/
theorem range_validate_kwargs_never_rejects_nonnumeric (kwargs : Kwargs) :
    RangeValidator.validate_kwargs
      [("range", .pdict [("min_value", .pint (-1)), ("max_value", .pint 5)])] = .ok () ∧
    RangeValidator.validate_kwargs
      [("range", .pdict [("min_value", .pfloat (mkRat 3 2)), ("max_value", .pint 5)])] = .ok () ∧
    (RangeValidator.validate_kwargs kwargs = .ok () ∨
     RangeValidator.validate_kwargs kwargs =
       .error (.validationError "min_value and max_value are required") ∨
     RangeValidator.validate_kwargs kwargs = .error .attributeError) := by
  refine ⟨by decide, by decide, ?_⟩
  unfold RangeValidator.validate_kwargs
  cases hg : kwargs.getD "range" (.pdict []) with
  | pdict d =>
      simp only [str_isdigit_uncalled, List.all_cons, List.all_nil, Bool.and_self,
        Bool.and_true, Bool.not_true, Bool.false_eq_true, if_false]
      by_cases h1 :
        (!(isNotNone (dictGetPy d "min_value") && isNotNone (dictGetPy d "max_value"))) = true
      · rw [if_pos h1]; right; left; rfl
      · rw [if_neg h1]; left; rfl
  | pstr s => right; right; rfl
  | pint n => right; right; rfl
  | pfloat q => right; right; rfl
  | plist l => right; right; rfl
  | pnone => right; right; rfl

/-- C5. For every well-formed registry state: registering keeps the state
well-formed; every successful lookup returns a type whose `slug` equals the
looked-up slug; registering a second type under the same slug overwrites the
first (the last registration wins); and the key set keeps one entry per slug. -/
theorem registry_slug_invariant (r : Registry) (hwf : RegistryWF r) (s : String)
    (v w t : ValidatorType) (hvw : v.slug = w.slug) :
    RegistryWF (ValidatorRegistry.register r v).1 ∧
    (ValidatorRegistry.get_validator r s = some t → t.slug = s) ∧
    ValidatorRegistry.get_validator
      (ValidatorRegistry.register (ValidatorRegistry.register r v).1 w).1 v.slug = some w ∧
    ((r.map Prod.fst).Nodup →
      (((ValidatorRegistry.register r v).1).map Prod.fst).Nodup) := by
  refine ⟨registryWF_dictSet r v hwf, ?_, ?_, nodup_keys_dictSet r v.slug v⟩
  · intro h
    unfold ValidatorRegistry.get_validator dictGet at h
    cases hf : List.find? (fun p => p.1 = s) r with
    | none => rw [hf] at h; simp at h
    | some p =>
        rw [hf] at h
        have h2 : p.2 = t := by simpa using h
        have hp : p.1 = s := by simpa using List.find?_some hf
        have hmem := List.mem_of_find?_eq_some hf
        rw [← h2, hwf p hmem, hp]
  · show dictGet (dictSet (dictSet r v.slug v) w.slug w) v.slug = some w
    rw [hvw]
    exact dictGet_dictSet_self _ _ _

/-- C5 witness: the invariant applied to the concrete module-load registry and
a pair of same-slug custom registrations. -/
theorem registry_slug_invariant_witness :
    RegistryWF builtinRegistry ∧ customVT1.slug = customVT2.slug ∧
    (RegistryWF (ValidatorRegistry.register builtinRegistry customVT1).1 ∧
     (ValidatorRegistry.get_validator builtinRegistry "regex" = some regexVT →
       regexVT.slug = "regex") ∧
     ValidatorRegistry.get_validator
       (ValidatorRegistry.register
         (ValidatorRegistry.register builtinRegistry customVT1).1 customVT2).1
       customVT1.slug = some customVT2 ∧
     ((builtinRegistry.map Prod.fst).Nodup →
       (((ValidatorRegistry.register builtinRegistry customVT1).1).map Prod.fst).Nodup)) :=
  ⟨by decide, by decide,
    registry_slug_invariant builtinRegistry (by decide) "regex"
      customVT1 customVT2 regexVT (by decide)⟩

/-- C6. Looking up a slug that is not a key of the registry returns `None`
and never raises (`get_validator` is a total function built on `dict.get`). -/
theorem get_validator_unknown_returns_none (r : Registry) (s : String)
    (h : ∀ p ∈ r, p.1 ≠ s) :
    ValidatorRegistry.get_validator r s = none := by
  unfold ValidatorRegistry.get_validator dictGet
  rw [List.find?_eq_none.mpr]
  · rfl
  · intro p hp
    simpa using h p hp

/-- C6 witness: `get_validator("nonexistent")` on the module-load registry. -/
theorem get_validator_unknown_returns_none_witness :
    (∀ p ∈ builtinRegistry, p.1 ≠ "nonexistent") ∧
    ValidatorRegistry.get_validator builtinRegistry "nonexistent" = none :=
  ⟨by decide, get_validator_unknown_returns_none builtinRegistry "nonexistent" (by decide)⟩

/-- C7. `RegexValidator.validate` succeeds exactly when the pattern matches
some (possibly proper, possibly empty) prefix of the raw value, anchored at
the start — `re.match` semantics, no full-string match required.  With pattern
`"^a"`: `"abc"` is accepted (by its proper prefix `"a"`, though the full
string does not match the pattern), `"bcd"` is rejected with the
`ValidationError`. -/
theorem regex_validate_start_anchored_match (pattern : Regex) (value : String) :
    (RegexValidator.validate pattern value = .ok () ↔
      ∃ n ≤ value.toList.length, pattern.accepts (value.toList.take n) = true) ∧
    RegexValidator.validate patternCaretA "abc" = .ok () ∧
    patternCaretA.accepts "abc".toList = false ∧
    RegexValidator.validate patternCaretA "bcd" =
      .error (.validationError "Value does not match regex") := by
  refine ⟨?_, by decide, by decide, by decide⟩
  unfold RegexValidator.validate
  constructor
  · intro h
    split at h
    · next hc =>
        unfold reMatch at hc
        simp only [List.any_eq_true, List.mem_range, Nat.lt_succ_iff] at hc
        obtain ⟨n, hn, ha⟩ := hc
        exact ⟨n, hn, ha⟩
    · next hc => simp at h
  · rintro ⟨n, hn, ha⟩
    have hm : reMatch pattern value = true := by
      unfold reMatch
      simp only [List.any_eq_true, List.mem_range, Nat.lt_succ_iff]
      exact ⟨n, hn, ha⟩
    simp [hm]

/-- C8. With `{min_value: 1, max_value: 5}`: `validate("3")` succeeds and
`to_value("3")` narrows the integral float to the integer `3`;
`validate("3.5")` succeeds and `to_value("3.5")` is the float `3.5`;
`validate("6")` fails with the out-of-range `ValidationError`; `validate("x")`
fails with the distinct "must be a number" `ValidationError` because parsing
as float fails. -/
theorem range_validator_examples :
    range15.validate "3" = .ok () ∧
    RangeValidator.to_value "3" = .ok (.pint 3) ∧
    range15.validate "3.5" = .ok () ∧
    RangeValidator.to_value "3.5" = .ok (.pfloat (7 / 2)) ∧
    range15.validate "6" =
      .error (.validationError "Value is not in range: %s - %s") ∧
    range15.validate "x" = .error (.validationError "Value must be an number") ∧
    (("Value must be an number" : String) == "Value is not in range: %s - %s") = false := by
  refine ⟨by decide, by decide, by decide, ?_, by decide, by decide, by decide⟩
  have h : RangeValidator.to_value "3.5" = .ok (.pfloat (mkRat 7 2)) := by decide
  rw [h]
  norm_num [Rat.mkRat_eq_div]

/-- C9. `BooleanValidator.validate` succeeds exactly when the lowercase form
of the raw value is `"true"` or `"false"` (so `"maybe"` fails with the
`ValidationError`), and `to_value` returns `true` exactly when the lowercase
form equals `"true"` (so `to_value("TRUE") = true`) and `false` otherwise. -/
theorem boolean_validator_lowercase_true_false (value : String) :
    (BooleanValidator.validate value = .ok () ↔
      (pyLowerStr value = "true" ∨ pyLowerStr value = "false")) ∧
    BooleanValidator.validate "maybe" =
      .error (.validationError "Value must be 'true' or 'false'.") ∧
    BooleanValidator.validate "TRUE" = .ok () ∧
    BooleanValidator.to_value "TRUE" = true ∧
    (BooleanValidator.to_value value = true ↔ pyLowerStr value = "true") := by
  refine ⟨?_, by decide, by decide, by decide, ?_⟩
  · unfold BooleanValidator.validate
    split
    · next h => simp [h]
    · next h => simp [h]
  · unfold BooleanValidator.to_value
    exact decide_eq_true_iff

/-- C10. `ChoiceValidator.__init__` takes the single explicit parameter
`choices`, so `initialize_from_kwargs` with a valid choices list plus any
additional unexpected keyword passes `validate_kwargs` and then raises a
`TypeError` from keyword binding in `cls(**kwargs)` — and `TypeError` is not
among the suppressed classes, so it escapes unwrapped rather than becoming the
uniform Configuration Error. -/
theorem choice_init_extra_kwarg_raises_typeerror (kw : Kwargs) (l : List String)
    (hget : kw.get "choices" = some (.plist l)) (hne : l ≠ [])
    (hextra : kw.any (fun p => p.1 ≠ "choices") = true) :
    ChoiceValidator.init_from_kwargs kw =
      .error (.typeError "__init__() got an unexpected keyword argument") := by
  have hvk : ChoiceValidator.validate_kwargs kw = .ok () := by
    unfold ChoiceValidator.validate_kwargs
    rw [hget]
    simp [truthy, hne]
  have hctor : ChoiceValidator.init kw =
      .error (.typeError "__init__() got an unexpected keyword argument") := by
    unfold ChoiceValidator.init
    rw [if_pos hextra]
  unfold ChoiceValidator.init_from_kwargs ValidatorBase.init_from_kwargs
  rw [show (ChoiceValidator.validate_kwargs kw >>= fun _ => ChoiceValidator.init kw) =
        ChoiceValidator.init kw by rw [hvk]; rfl]
  rw [hctor]
  rfl

/-- C10 witness: the concrete configuration `{choices: ["a","b"], extra: 1}`. -/
theorem choice_init_extra_kwarg_raises_typeerror_witness :
    kwChoicesExtra.get "choices" = some (.plist ["a", "b"]) ∧
    (["a", "b"] : List String) ≠ [] ∧
    kwChoicesExtra.any (fun p => p.1 ≠ "choices") = true ∧
    ChoiceValidator.init_from_kwargs kwChoicesExtra =
      .error (.typeError "__init__() got an unexpected keyword argument") :=
  ⟨by decide, by decide, by decide,
    choice_init_extra_kwarg_raises_typeerror kwChoicesExtra ["a", "b"]
      (by decide) (by decide) (by decide)⟩

end EavValidator
